import Mathlib

/-!
Verification of the Baba-Is-You JSON evaluation harness
(`scripts/eval_harness.py`) and the grid/environment layer it drives.

The harness (`EvalHarness.handle_command`, `EvalHarness.run`) is embedded
directly from `scripts/eval_harness.py`.  The `baba` package itself
(`Grid`, `RuleManager`, the step resolver, `baba.envs.ENVIRONMENTS`,
`create_environment`) is not part of the repository sources available
here, so those components are modelled from the specification, as marked
on each definition.

Python JSON values are modelled by `PyVal`; a raised Python exception is
modelled by the `Except PyExc` monad.  Floating point rewards are
modelled as integers (the spec only uses the sparse values 0.0 and 1.0
and no claim computes with them).
-/

/-- A Python value as produced by `json.loads` (and as assembled by the
harness for its responses).  JSON objects are association lists; floats
are modelled by integers (only 0.0/1.0 rewards occur). -/
inductive PyVal where
  | vnull : PyVal
  | vbool : Bool → PyVal
  | vint : Int → PyVal
  | vstr : String → PyVal
  | vlist : List PyVal → PyVal
  | vdict : List (String × PyVal) → PyVal
deriving Repr

/-- Python `dict.get(key, default)` on a parsed JSON object: the value stored
under `key`, or `default` when the key is absent. -/
def dget (fs : List (String × PyVal)) (k : String) (d : PyVal) : PyVal :=
  ((fs.lookup k).getD d)

/-- Whether a Python value is hashable (usable as a `key in dict` test
without raising `TypeError`): lists and dicts are unhashable. -/
def pyHashable : PyVal → Bool
  | .vlist _ => false
  | .vdict _ => false
  | _ => true

/-- Python `str(v)` as used by the harness's f-string error messages (only the
cases that can actually reach a message matter; the rendering detail is
irrelevant to every claim). -/
def pyStr : PyVal → String
  | .vnull => "None"
  | .vbool b => if b then "True" else "False"
  | .vint n => toString n
  | .vstr s => s
  | .vlist _ => "[...]"
  | .vdict _ => "\x7b...\x7d"

/-- A Python exception escaping `handle_command`. -/
inductive PyExc where
  /-- Exception `AttributeError`: `.get` called on a non-dict value. -/
  | attributeError : PyExc
  /-- Exception `TypeError: unhashable type`: an unhashable key in a `in dict` test. -/
  | typeError : PyExc
deriving Repr, DecidableEq

/-!
Grid / rule / step-resolver model.

Modelled from the spec: the `baba` package (`baba.grid.Grid`,
`baba.properties.Property`, the rule manager and the step resolver) is
not among the repository sources under src/ — only its callers
(`scripts/eval_harness.py`) and tests are.  The definitions below follow
spec §3 (data model), §4.1 (Grid contract), §4.2 (rule scan) and §4.3
(step resolver).  Storage note: the spec stores objects in a 2-D cell
array with the invariant that each object's `(x, y)` matches its cell;
here the same state is represented by a flat object list and cells are
recovered by coordinate filtering, which keeps that invariant by
construction.  The spec's `MOVE` property (autonomous movement) is not
modelled: the spec's `Object` record carries no facing direction, so no
faithful model of it is derivable; no claim concerns it.
-/

/-- Modelled from the spec: the closed `Property` enumeration of §3. -/
inductive Property where
  | you | win | stop | push | sink | defeat | move
deriving Repr, DecidableEq

/-- Names of the recognized property text tokens, in the order listed by
spec §3. -/
def propertyNames : List String :=
  ["you", "win", "stop", "push", "sink", "defeat", "move"]

/-- Parse a property token name into a `Property`. -/
def propertyOfString : String → Option Property
  | "you" => some .you
  | "win" => some .win
  | "stop" => some .stop
  | "push" => some .push
  | "sink" => some .sink
  | "defeat" => some .defeat
  | "move" => some .move
  | _ => none

/-- Render a `Property` as its token name. -/
def propertyName : Property → String
  | .you => "you"
  | .win => "win"
  | .stop => "stop"
  | .push => "push"
  | .sink => "sink"
  | .defeat => "defeat"
  | .move => "move"

/-- Whether a text token is a property word. -/
def isPropertyName (s : String) : Bool := propertyNames.contains s

/-- Whether a text token is a noun (anything that is neither a property
word nor the connective "is"). -/
def isNounName (s : String) : Bool := !isPropertyName s && s != "is"

/-- Modelled from the spec: the `Object` record of §3 (`name`, `x`, `y`,
`is_text`; the optional display `color` carries no game logic and is
omitted). -/
structure Object where
  name : String
  x : Nat
  y : Nat
  is_text : Bool
deriving Repr, DecidableEq

/-- Field-by-field reconstruction of an object, the pure-model image of
a deep copy of one record. -/
def Object.clone (o : Object) : Object :=
  { name := o.name, x := o.x, y := o.y, is_text := o.is_text }

/-- Modelled from the spec: the `Grid` of §3 — object storage plus the
`steps` counter and the sticky `won`/`lost` terminal flags. -/
structure Grid where
  width : Nat
  height : Nat
  objects : List Object
  steps : Nat
  won : Bool
  lost : Bool
deriving Repr, DecidableEq

/-- Objects occupying cell `(x, y)` (spec §4.1 `get_objects_at`,
restricted to in-range coordinates; arguments are `Int` so that
neighbour arithmetic below cannot underflow). -/
def Grid.objectsAt (g : Grid) (x y : Int) : List Object :=
  g.objects.filter (fun o => (o.x : Int) == x && (o.y : Int) == y)

/-- Multiset of object names stored in cell `(x, y)` (the per-cell
object-name multiset of spec §8). -/
def Grid.namesAt (g : Grid) (x y : Int) : Multiset String :=
  ((g.objectsAt x y).map Object.name : List String)

/-- Text objects occupying cell `(x, y)`. -/
def Grid.textAt (g : Grid) (x y : Int) : List Object :=
  (g.objectsAt x y).filter (fun o => o.is_text)

/-- Rules contributed by noun text `o` reading in direction `(dx, dy)`:
the pattern `[NOUN_TEXT]["IS" TEXT][PROPERTY_TEXT or NOUN_TEXT]` of spec
§4.2, one axis. -/
def ruleFrom (g : Grid) (o : Object) (dx dy : Int) : List (String × String) :=
  if (g.textAt ((o.x : Int) + dx) ((o.y : Int) + dy)).any (fun t => t.name == "is") then
    ((g.textAt ((o.x : Int) + 2 * dx) ((o.y : Int) + 2 * dy)).filter
        (fun t => isPropertyName t.name || isNounName t.name)).map
      (fun t => (o.name, t.name))
  else []

/-- Modelled from the spec: the §4.2 full-grid rule scan.  Every
noun-text object is read horizontally and vertically; duplicate
identical rules collapse to one. -/
def Grid.scanRules (g : Grid) : List (String × String) :=
  (g.objects.foldr
    (fun o acc =>
      if o.is_text && isNounName o.name then
        ruleFrom g o 1 0 ++ ruleFrom g o 0 1 ++ acc
      else acc)
    []).dedup

/-- Properties a noun currently carries under the scanned rule list
(spec §4.2 resolution: a noun may accumulate several properties). -/
def rulesProps (rules : List (String × String)) (noun : String) : List Property :=
  rules.filterMap (fun r => if r.1 == noun then propertyOfString r.2 else none)

/-- Transformation target of a noun, when some rule maps it to another
noun.  Spec §9 leaves the conflict policy open; this model documents and
uses last-scanned-wins. -/
def rulesTransform (rules : List (String × String)) (noun : String) : Option String :=
  ((rules.filter (fun r => r.1 == noun && isNounName r.2)).getLast?).map Prod.snd

/-- Whether object `o` currently carries property `p`.  Rule-forming
text is itself always pushable (the spec's levels move text by pushing,
e.g. the make_win scenarios) and carries no other property. -/
def objHasProp (rules : List (String × String)) (o : Object) (p : Property) : Bool :=
  if o.is_text then p == Property.push
  else (rulesProps rules o.name).contains p

/-- Whether object `o` can be shoved (spec §3 PUSH, plus text). -/
def objPushable (rules : List (String × String)) (o : Object) : Bool :=
  o.is_text || (rulesProps rules o.name).contains Property.push

/-- Whether a cell's content blocks entry outright: it holds a STOP
object that is not also pushable (spec §4.3 step 3b). -/
def cellBlocks (rules : List (String × String)) (cell : List Object) : Bool :=
  cell.any (fun o => objHasProp rules o .stop && !objPushable rules o)

/-- Movement vector of an action (spec §4.3 step 2; `wait` and anything
else give the zero vector; the y axis grows downward, origin top-left). -/
def actionVec : String → Int × Int
  | "up" => (0, -1)
  | "down" => (0, 1)
  | "left" => (-1, 0)
  | "right" => (1, 0)
  | _ => (0, 0)

/-- Whether `(x, y)` lies inside the grid. -/
def Grid.inBounds (g : Grid) (x y : Int) : Bool :=
  0 ≤ x && x < (g.width : Int) && 0 ≤ y && y < (g.height : Int)

/-- Displace an object one step by `(dx, dy)` (callers guarantee the
target is in bounds, so the `Int.toNat` clamps never truncate). -/
def Object.shift (o : Object) (dx dy : Int) : Object :=
  { o with x := ((o.x : Int) + dx).toNat, y := ((o.y : Int) + dy).toNat }

/-- Length of the contiguous run of pushable-holding cells starting at
`(x, y)` in direction `(dx, dy)`, ending at the first in-bounds cell
with no pushable content (spec §4.3 push-chain); `none` when the run
reaches the grid edge (the chain would be pushed off the grid, so the
whole move fails).  `fuel` bounds the walk; callers pass the grid
perimeter so it never runs out inside the grid. -/
def Grid.chainLen (g : Grid) (rules : List (String × String)) :
    Nat → Int → Int → Int → Int → Option Nat
  | 0, _, _, _, _ => none
  | fuel + 1, x, y, dx, dy =>
    if !g.inBounds x y then none
    else if (g.objectsAt x y).any (objPushable rules) then
      (g.chainLen rules fuel (x + dx) (y + dy) dx dy).map (· + 1)
    else some 0

/-- Whether none of the `k + 1` cells from `(x, y)` along `(dx, dy)`
holds a non-pushable STOP object (spec §4.3 step 3b: STOP without PUSH
blocks, also when it shares a cell with the chain). -/
def Grid.pathClear (g : Grid) (rules : List (String × String))
    (x y dx dy : Int) (k : Nat) : Bool :=
  (List.range (k + 1)).all
    (fun i => !cellBlocks rules (g.objectsAt (x + (i : Int) * dx) (y + (i : Int) * dy)))

/-- Attempt to move the object stored at list index `i` by `(dx, dy)`
(spec §4.3 step 3): out-of-bounds targets cancel the move; a pushable
run ahead is shoved one cell as a whole or, if it cannot be, nothing
moves; a bare STOP blocks. -/
def Grid.moveYou (g : Grid) (rules : List (String × String)) (i : Nat)
    (dx dy : Int) : Grid :=
  match g.objects.get? i with
  | none => g
  | some o =>
    if dx == 0 && dy == 0 then g
    else
      let tx := (o.x : Int) + dx
      let ty := (o.y : Int) + dy
      if !g.inBounds tx ty then g
      else
        match g.chainLen rules (g.width + g.height) tx ty dx dy with
        | none => g
        | some k =>
          if !g.pathClear rules tx ty dx dy k then g
          else
            { g with
              objects := g.objects.mapIdx (fun j ob =>
                if j == i then ob.shift dx dy
                else if ((List.range k).any (fun m =>
                          (ob.x : Int) == tx + (m : Int) * dx &&
                          (ob.y : Int) == ty + (m : Int) * dy)) &&
                        objPushable rules ob then
                  ob.shift dx dy
                else ob) }

/-- Indices of the objects currently carrying YOU (spec §4.2
`get_you_objects`; indices, because objects are identity-free records). -/
def youIdxs (rules : List (String × String)) (objs : List Object) : List Nat :=
  (List.range objs.length).filter (fun i =>
    match objs.get? i with
    | some o => objHasProp rules o .you
    | none => false)

/-- Move every YOU object by the action vector (spec §4.3 step 3),
one after the other. -/
def Grid.moveYous (g : Grid) (rules : List (String × String)) (v : Int × Int) : Grid :=
  (youIdxs rules g.objects).foldl (fun gg i => gg.moveYou rules i v.1 v.2) g

/-- Spec §4.3 step 4, SINK: every cell holding a SINK object together
with at least one other object loses its whole content. -/
def Grid.applySinks (g : Grid) (rules : List (String × String)) : Grid :=
  { g with
    objects := g.objects.filter (fun o =>
      !((g.objectsAt o.x o.y).any (fun s => objHasProp rules s .sink) &&
        (g.objectsAt o.x o.y).length ≥ 2)) }

/-- Spec §4.3 step 4, DEFEAT: a YOU object sharing a cell with a DEFEAT
object is destroyed; the DEFEAT object is not consumed. -/
def Grid.applyDefeats (g : Grid) (rules : List (String × String)) : Grid :=
  { g with
    objects := g.objects.filter (fun o =>
      !(objHasProp rules o .you &&
        (g.objectsAt o.x o.y).any (fun d => objHasProp rules d .defeat))) }

/-- Spec §4.3 step 4, transformations: a non-text object whose noun has
a transformation target swaps its name and keeps its position. -/
def Grid.applyTransforms (g : Grid) (rules : List (String × String)) : Grid :=
  { g with
    objects := g.objects.map (fun o =>
      if o.is_text then o
      else
        match rulesTransform rules o.name with
        | some t => { o with name := t }
        | none => o) }

/-- Spec §4.3 steps 5–6: rescan rules, then set the sticky terminal
flags — `won` when a YOU object overlaps a WIN object, `lost` when the
YOU set is empty and the episode is not won. -/
def Grid.checkWin (g : Grid) : Grid :=
  let rules := g.scanRules
  let yous := g.objects.filter (fun o => objHasProp rules o .you)
  let wins := g.objects.filter (fun o => objHasProp rules o .win)
  let winNow := yous.any (fun o => wins.any (fun w => w.x == o.x && w.y == o.y))
  let won' := g.won || winNow
  let lost' := g.lost || (!won' && yous.isEmpty)
  { g with won := won', lost := lost' }

/-- Modelled from the spec: one tick of the §4.3 step resolver — rescan
rules, move the YOU objects, resolve overlaps, re-derive terminal state,
increment `steps` (the increment is unconditional bookkeeping, spec §4.3
step 7 and §9). -/
def Grid.step (g : Grid) (action : String) : Grid :=
  let rules := g.scanRules
  let g1 := g.moveYous rules (actionVec action)
  let g2 := ((g1.applySinks rules).applyDefeats rules).applyTransforms rules
  let g3 := g2.checkWin
  { g3 with steps := g3.steps + 1 }

/-- Modelled from the spec: §4.1 `copy()` — a fully independent deep
copy with identical per-cell content and identical `steps`/`won`/`lost`.
In this pure embedding a deep copy is field-by-field value
reconstruction. -/
def Grid.copy (g : Grid) : Grid :=
  { width := g.width, height := g.height,
    objects := g.objects.map Object.clone,
    steps := g.steps, won := g.won, lost := g.lost }

/-- Modelled from the spec: §6 only requires `type_id` to be an `int`
per object name; this model numbers a fixed listing of known names and
uses 0 otherwise. -/
def typeIdOf (name : String) : Int :=
  match ["baba", "flag", "wall", "rock", "water", "skull", "key", "door"].indexOf? name with
  | some i => (i : Int) + 1
  | none => 0

/-- Nouns mentioned as rule subjects, deduplicated in scan order. -/
def ruleSubjects (rules : List (String × String)) : List String :=
  (rules.map Prod.fst).dedup

/-- Modelled from the spec: §4.1/§6 serialization — the canonical
observation structure, recomputing rules first so `rules`, `properties`
and `transformations` are current. -/
def Grid.to_dict (g : Grid) : PyVal :=
  let rules := g.scanRules
  .vdict
    [("dimensions", .vdict [("width", .vint g.width), ("height", .vint g.height)]),
     ("objects", .vlist (g.objects.map (fun o =>
        .vdict [("name", .vstr o.name), ("type_id", .vint (typeIdOf o.name)),
                ("x", .vint o.x), ("y", .vint o.y), ("is_text", .vbool o.is_text)]))),
     ("rules", .vlist (rules.map (fun r => .vstr (r.1.toUpper ++ " IS " ++ r.2.toUpper)))),
     ("properties", .vdict ((ruleSubjects rules).filterMap (fun n =>
        match rulesProps rules n with
        | [] => none
        | ps => some (n, .vlist (ps.map (fun p => .vstr (propertyName p))))))),
     ("transformations", .vdict ((ruleSubjects rules).filterMap (fun n =>
        (rulesTransform rules n).map (fun t => (n, .vstr t))))),
     ("state", .vdict [("won", .vbool g.won), ("lost", .vbool g.lost), ("steps", .vint g.steps)])]

/-- Modelled from the spec: a registry entry of §4.4 — a named level
binds an initial layout and a plain integer `difficulty` annotation. -/
structure EnvClass where
  difficulty : Int
  layout : Grid
deriving Repr

/-- Modelled from the spec: an `Environment` instance of §4.4, owning
its current Grid and remembering its class so `reset` can rebuild the
layout. -/
structure Environment where
  cls : EnvClass
  grid : Grid
deriving Repr

/-- Modelled from the spec: a registry (name → environment class), the
explicit lookup table of §9. -/
abbrev Registry : Type := List (String × EnvClass)

/-- Modelled from the spec: `create_environment(name)` builds an
instance of the registered class; `none` for an unregistered name
(`UnknownEnvironment`). -/
def create_environment (envs : Registry) (name : String) : Option Environment :=
  (envs.lookup name).map (fun c => { cls := c, grid := c.layout })

/-- Modelled from the spec: §4.4 `reset()` — discard the current Grid
and rebuild a fresh one from the class layout. -/
def Environment.reset (e : Environment) : Environment :=
  { e with grid := e.cls.layout }

/-- Modelled from the spec: §4.4 serialization delegates to the Grid. -/
def Environment.to_dict (e : Environment) : PyVal :=
  e.grid.to_dict

/-- Modelled from the spec: §4.4 `step(action)` — delegate to the Grid
step, sparse terminal reward (1 on the transition into `won`, else 0,
modelling the spec's 1.0/0.0 floats as integers), `done = won or lost`,
and a free-form `info` dict carrying the step count.  Returns the
updated environment together with `(observation, reward, done, info)`. -/
def Environment.step (e : Environment) (action : String) :
    Environment × PyVal × PyVal × PyVal × PyVal :=
  let g := e.grid.step action
  let e' := { e with grid := g }
  (e', g.to_dict,
   .vint (if !e.grid.won && g.won then 1 else 0),
   .vbool (g.won || g.lost),
   .vdict [("steps", .vint g.steps)])

/-!
Embedding of `scripts/eval_harness.py`.

`handle_command` and `run` below are translated from the source.  The
Python module global `ENVIRONMENTS` (from `baba.envs`, not under src/)
becomes an explicit `Registry` parameter.  A raised exception is an
`Except.error`; the real error-message strings contain apostrophes,
elided here (no claim depends on those characters).  Reward floats are
carried as the `PyVal` the environment produced.
-/

/-- Response dict `{"status": "error", "message": msg}`. -/
def errResp (msg : String) : PyVal :=
  .vdict [("status", .vstr "error"), ("message", .vstr msg)]

/-- Harness state: `self.env` and `self.env_name`, both `None` at
construction. -/
structure EvalHarness where
  env : Option Environment
  env_name : Option String
deriving Repr

/-- A freshly constructed harness (`EvalHarness.__init__`). -/
def EvalHarness.init : EvalHarness := { env := none, env_name := none }

/-- Embedding of `EvalHarness.handle_command`.  Dispatches on
`cmd_data.get("cmd", "")`; non-dict `cmd_data` raises `AttributeError`
at that `.get`, and a reset with an unhashable `env` value raises
`TypeError` at the `env_name not in ENVIRONMENTS` test. -/
def EvalHarness.handle_command (st : EvalHarness) (envs : Registry)
    (cmd_data : PyVal) : Except PyExc (EvalHarness × PyVal) :=
  match cmd_data with
  | .vdict fs =>
    match dget fs "cmd" (.vstr "") with
    | .vstr c =>
      if c == "list_envs" then
        .ok (st, .vdict
          [("status", .vstr "ok"),
           ("envs", .vdict (envs.map (fun nc =>
              (nc.1, .vdict [("difficulty", .vint nc.2.difficulty)]))))])
      else if c == "reset" then
        if !pyHashable (dget fs "env" (.vstr "simple")) then .error .typeError
        else
          match dget fs "env" (.vstr "simple") with
          | .vstr n =>
            match create_environment envs n with
            | none =>
              .ok (st, errResp ("Unknown environment: " ++ n ++
                ". Use list_envs to see available environments."))
            | some e0 =>
              .ok ({ env := some e0.reset, env_name := some n },
                   .vdict [("status", .vstr "ok"), ("env", .vstr n),
                           ("observation", e0.reset.to_dict)])
          | other =>
            .ok (st, errResp ("Unknown environment: " ++ pyStr other ++
              ". Use list_envs to see available environments."))
      else if c == "step" then
        match st.env with
        | none => .ok (st, errResp "No environment loaded. Use reset first.")
        | some e =>
          match dget fs "action" (.vstr "wait") with
          | .vstr a =>
            if ["up", "down", "left", "right", "wait"].contains a then
              match e.step a with
              | (e', _obs, reward, done, info) =>
                .ok ({ st with env := some e' },
                     .vdict [("status", .vstr "ok"),
                             ("observation", e'.to_dict),
                             ("reward", reward), ("done", done), ("info", info)])
            else
              .ok (st, errResp ("Invalid action: " ++ a ++
                ". Valid actions: [up, down, left, right, wait]"))
          | other =>
            .ok (st, errResp ("Invalid action: " ++ pyStr other ++
              ". Valid actions: [up, down, left, right, wait]"))
      else if c == "info" then
        match st.env with
        | none => .ok (st, errResp "No environment loaded. Use reset first.")
        | some e =>
          .ok (st, .vdict
            [("status", .vstr "ok"),
             ("env", match st.env_name with | some n => .vstr n | none => .vnull),
             ("observation", e.to_dict)])
      else if c == "quit" then
        .ok (st, .vdict [("status", .vstr "ok"), ("message", .vstr "goodbye")])
      else
        .ok (st, errResp ("Unknown command: " ++ c ++
          ". Valid commands: list_envs, reset, step, info, quit"))
    | other =>
      .ok (st, errResp ("Unknown command: " ++ pyStr other ++
        ". Valid commands: list_envs, reset, step, info, quit"))
  | _ => .error .attributeError

/-- One line of standard input, after `line.strip()` and `json.loads`
(both Python-library operations): blank, undecodable, or a decoded
value. -/
inductive RunLine where
  | blank
  | badJson (detail : String)
  | parsed (v : PyVal)
deriving Repr

/-- Outcome of the run loop: the emitted responses in order, ending
normally (quit or end of input) or by an exception escaping the loop. -/
inductive RunResult where
  | normal (out : List PyVal)
  | crashed (out : List PyVal) (e : PyExc)
deriving Repr

/-- Prefix one emitted response onto a run outcome. -/
def RunResult.cons (r : PyVal) : RunResult → RunResult
  | .normal out => .normal (r :: out)
  | .crashed out e => .crashed (r :: out) e

/-- Test `cmd_data.get("cmd") == "quit"` from the run loop (default
`None` here, unlike the `""` default inside `handle_command`). -/
def isQuitCmd (v : PyVal) : Bool :=
  match v with
  | .vdict fs =>
    match dget fs "cmd" .vnull with
    | .vstr s => s == "quit"
    | _ => false
  | _ => false

/-- Embedding of `EvalHarness.run`: skip blank lines, answer
undecodable lines with an Invalid JSON error and continue, otherwise
answer via `handle_command` and stop after a quit command. -/
def EvalHarness.run (envs : Registry) : EvalHarness → List RunLine → RunResult
  | _, [] => .normal []
  | st, .blank :: rest => EvalHarness.run envs st rest
  | st, .badJson detail :: rest =>
    RunResult.cons (errResp ("Invalid JSON: " ++ detail))
      (EvalHarness.run envs st rest)
  | st, .parsed v :: rest =>
    match st.handle_command envs v with
    | .error e => .crashed [] e
    | .ok (st', resp) =>
      if isQuitCmd v then .normal [resp]
      else RunResult.cons resp (EvalHarness.run envs st' rest)

/-!
Concrete registry instance.

Modelled from the spec: `baba.envs.ENVIRONMENTS` is not under src/.  The
tests list fourteen registered names; this model instantiates the
registry with two representative entries whose layouts follow the
documented scenarios (spec §8: in "simple", baba starts at `(2, 5)` and
the flag at `(12, 5)` on the same unobstructed row with `BABA IS YOU`
and `FLAG IS WIN` active; "wall_maze" adds a `WALL IS STOP` rule).  All
claim theorems quantify over an arbitrary registry; this instance only
feeds the concrete witnesses.
-/

/-- Initial layout of the "simple" level. -/
def simpleLayout : Grid :=
  { width := 14, height := 8,
    objects :=
      [⟨"baba", 1, 0, true⟩, ⟨"is", 2, 0, true⟩, ⟨"you", 3, 0, true⟩,
       ⟨"flag", 1, 1, true⟩, ⟨"is", 2, 1, true⟩, ⟨"win", 3, 1, true⟩,
       ⟨"baba", 2, 5, false⟩, ⟨"flag", 12, 5, false⟩],
    steps := 0, won := false, lost := false }

/-- Initial layout of the "wall_maze" level (a wall between baba and the
flag, `WALL IS STOP` active). -/
def wallMazeLayout : Grid :=
  { width := 7, height := 6,
    objects :=
      [⟨"baba", 0, 0, true⟩, ⟨"is", 1, 0, true⟩, ⟨"you", 2, 0, true⟩,
       ⟨"wall", 0, 1, true⟩, ⟨"is", 1, 1, true⟩, ⟨"stop", 2, 1, true⟩,
       ⟨"flag", 4, 0, true⟩, ⟨"is", 5, 0, true⟩, ⟨"win", 6, 0, true⟩,
       ⟨"baba", 1, 4, false⟩, ⟨"wall", 3, 3, false⟩, ⟨"wall", 3, 4, false⟩,
       ⟨"wall", 3, 5, false⟩, ⟨"flag", 5, 4, false⟩],
    steps := 0, won := false, lost := false }

/-- Modelled from the spec: the registry instance used by the concrete
witnesses. -/
def ENVIRONMENTS : Registry :=
  [("simple", { difficulty := 1, layout := simpleLayout }),
   ("wall_maze", { difficulty := 2, layout := wallMazeLayout })]

/-!
Helpers for stating the claims.
-/

/-- Field of a response dict. -/
def respField (r : PyVal) (k : String) : Option PyVal :=
  match r with
  | .vdict fs => fs.lookup k
  | _ => none

/-- Whether a response carries `"status": "error"`. -/
def isErrorResp (r : PyVal) : Bool :=
  match respField r "status" with
  | some (.vstr s) => s == "error"
  | _ => false

/-- Whether a response carries `"status": "ok"`. -/
def isOkResp (r : PyVal) : Bool :=
  match respField r "status" with
  | some (.vstr s) => s == "ok"
  | _ => false

/-- Whether a response dict has field `k`. -/
def hasField (r : PyVal) (k : String) : Bool :=
  (respField r k).isSome

/-- Whether a `PyVal` is one of the five recognized action strings (the
`action in valid_actions` test of the step branch; a non-string JSON
value is never equal to any of them). -/
def validStepAction : PyVal → Bool
  | .vstr a => ["up", "down", "left", "right", "wait"].contains a
  | _ => false

/-- Whether a run-loop input line is blank (skipped without an answer). -/
def isBlankLine : RunLine → Bool
  | .blank => true
  | _ => false

/-- Whether a run-loop input line is a decoded quit command. -/
def isQuitLine : RunLine → Bool
  | .parsed v => isQuitCmd v
  | _ => false

/-- Input lines that keep `handle_command` from raising: every decoded
value must be a JSON object, and a reset command's "env" value must be
hashable.  Blank and undecodable lines are always safe (the loop skips
or answers them itself). -/
def SafeLine : RunLine → Bool
  | .parsed (.vdict fs) =>
    (match dget fs "cmd" (.vstr "") with
     | .vstr c =>
       if c == "reset" then pyHashable (dget fs "env" (.vstr "simple")) else true
     | _ => true)
  | .parsed _ => false
  | _ => true

/-!
Theorems for the claims.
-/

/-- C2: for every step command, `handle_command` answers with status
"error" exactly when no environment has been reset yet or the action
value (defaulting to "wait") is not one of the five recognized action
strings; otherwise it answers status "ok" carrying observation, reward,
done and info fields. -/
theorem harness_step_error_iff (envs : Registry) (st : EvalHarness)
    (fs : List (String × PyVal))
    (h : dget fs "cmd" (.vstr "") = .vstr "step") :
    ∃ st' resp, st.handle_command envs (.vdict fs) = .ok (st', resp) ∧
      (isErrorResp resp = true ↔
        (st.env = none ∨ validStepAction (dget fs "action" (.vstr "wait")) = false)) ∧
      (isErrorResp resp = false →
        isOkResp resp = true ∧ hasField resp "observation" = true ∧
        hasField resp "reward" = true ∧ hasField resp "done" = true ∧
        hasField resp "info" = true) := by
  cases henv : st.env with
  | none =>
    simp [EvalHarness.handle_command, h, henv, isErrorResp, isOkResp, hasField,
          respField, errResp, validStepAction]
    exact ⟨st, _, ⟨rfl, rfl⟩, by rfl, fun hX => nomatch hX⟩
  | some e =>
    cases ha : dget fs "action" (.vstr "wait") with
    | vstr a =>
      by_cases hva : a = "up" ∨ a = "down" ∨ a = "left" ∨ a = "right" ∨ a = "wait"
      · simp [EvalHarness.handle_command, h, henv, ha, hva, isErrorResp, isOkResp,
              hasField, respField, errResp, validStepAction]
        exact ⟨_, _, ⟨rfl, rfl⟩, rfl, fun _ => ⟨rfl, rfl, rfl, rfl, rfl⟩⟩
      · simp [EvalHarness.handle_command, h, henv, ha, hva, isErrorResp, isOkResp,
              hasField, respField, errResp, validStepAction]
        exact ⟨st, _, ⟨rfl, rfl⟩, by simp [hva], fun hX => nomatch hX⟩
    | vnull =>
      simp [EvalHarness.handle_command, h, henv, ha, isErrorResp, isOkResp,
            hasField, respField, errResp, validStepAction]
      exact ⟨st, _, ⟨rfl, rfl⟩, by rfl, fun hX => nomatch hX⟩
    | vbool b =>
      simp [EvalHarness.handle_command, h, henv, ha, isErrorResp, isOkResp,
            hasField, respField, errResp, validStepAction]
      exact ⟨st, _, ⟨rfl, rfl⟩, by rfl, fun hX => nomatch hX⟩
    | vint n =>
      simp [EvalHarness.handle_command, h, henv, ha, isErrorResp, isOkResp,
            hasField, respField, errResp, validStepAction]
      exact ⟨st, _, ⟨rfl, rfl⟩, by rfl, fun hX => nomatch hX⟩
    | vlist xs =>
      simp [EvalHarness.handle_command, h, henv, ha, isErrorResp, isOkResp,
            hasField, respField, errResp, validStepAction]
      exact ⟨st, _, ⟨rfl, rfl⟩, by rfl, fun hX => nomatch hX⟩
    | vdict gs =>
      simp [EvalHarness.handle_command, h, henv, ha, isErrorResp, isOkResp,
            hasField, respField, errResp, validStepAction]
      exact ⟨st, _, ⟨rfl, rfl⟩, by rfl, fun hX => nomatch hX⟩

/-- C2 witness: a step command on a fresh harness (no reset yet) is
answered with an error response, as the theorem instantiates. -/
theorem harness_step_error_iff_witness :
    dget [("cmd", PyVal.vstr "step")] "cmd" (.vstr "") = .vstr "step" ∧
    (∃ st' resp,
      EvalHarness.init.handle_command ENVIRONMENTS
        (.vdict [("cmd", .vstr "step")]) = .ok (st', resp) ∧
      (isErrorResp resp = true ↔
        (EvalHarness.init.env = none ∨
         validStepAction (dget [("cmd", PyVal.vstr "step")] "action" (.vstr "wait")) = false)) ∧
      (isErrorResp resp = false →
        isOkResp resp = true ∧ hasField resp "observation" = true ∧
        hasField resp "reward" = true ∧ hasField resp "done" = true ∧
        hasField resp "info" = true)) :=
  ⟨rfl, harness_step_error_iff ENVIRONMENTS EvalHarness.init
    [("cmd", .vstr "step")] rfl⟩

/-- C8: whenever `handle_command` returns (rather than raises) a
response whose status is "error", the harness state is unchanged — in
particular `env` and `env_name` keep their previous values, and since
`Grid.step` always increments the step counter, an unchanged state also
means the loaded environment was not stepped. -/
theorem harness_error_keeps_state (envs : Registry) (st st' : EvalHarness)
    (v resp : PyVal)
    (hok : st.handle_command envs v = .ok (st', resp))
    (herr : isErrorResp resp = true) : st' = st := by
  unfold EvalHarness.handle_command at hok
  repeat' split at hok
  all_goals try exact Except.noConfusion hok
  all_goals
    (injection hok with hp
     injection hp with h1 h2
     subst h1
     subst h2)
  all_goals try rfl
  all_goals exact Bool.noConfusion herr

/-- C8 witness: the error answer to a step command on a fresh harness
leaves the state unchanged. -/
theorem harness_error_keeps_state_witness :
    EvalHarness.init.handle_command ENVIRONMENTS (.vdict [("cmd", .vstr "step")]) =
      .ok (EvalHarness.init, errResp "No environment loaded. Use reset first.") ∧
    isErrorResp (errResp "No environment loaded. Use reset first.") = true ∧
    EvalHarness.init = EvalHarness.init :=
  ⟨rfl, rfl,
   harness_error_keeps_state ENVIRONMENTS EvalHarness.init EvalHarness.init
     (.vdict [("cmd", .vstr "step")])
     (errResp "No environment loaded. Use reset first.") rfl rfl⟩

/-- Associativity of string concatenation (needed to read a message
prefix off a concatenated error string). -/
theorem str_append_assoc (a b c : String) : a ++ b ++ c = a ++ (b ++ c) := by
  cases a; cases b; cases c
  show String.append (String.append _ _) _ = String.append _ (String.append _ _)
  simp [String.append]

/-- C3: an undecodable input line makes the run loop emit an error
response whose message starts with "Invalid JSON:", and the loop then
continues with the remaining lines in the same state. -/
theorem harness_bad_json_reports_and_continues (envs : Registry) (st : EvalHarness)
    (detail : String) (rest : List RunLine) :
    EvalHarness.run envs st (.badJson detail :: rest) =
      RunResult.cons (errResp ("Invalid JSON: " ++ detail))
        (EvalHarness.run envs st rest) ∧
    ∃ suffix, respField (errResp ("Invalid JSON: " ++ detail)) "message" =
      some (.vstr ("Invalid JSON:" ++ suffix)) := by
  refine ⟨rfl, ⟨" " ++ detail, ?_⟩⟩
  have h : "Invalid JSON: " ++ detail = "Invalid JSON:" ++ (" " ++ detail) := by
    rw [← str_append_assoc]
    rfl
  rw [h]
  rfl

/-- C4: a reset command naming a registered environment is answered with
status "ok" carrying the environment name and the serialized observation
of the freshly reset environment; naming an unregistered environment is
answered with a status "error" response carrying a message. -/
theorem harness_reset_registered_or_error (envs : Registry) (st : EvalHarness)
    (fs : List (String × PyVal)) (name : String)
    (hcmd : dget fs "cmd" (.vstr "") = .vstr "reset")
    (henv : dget fs "env" (.vstr "simple") = .vstr name) :
    (∀ e0, create_environment envs name = some e0 →
      st.handle_command envs (.vdict fs) =
        .ok ({ env := some e0.reset, env_name := some name },
             .vdict [("status", .vstr "ok"), ("env", .vstr name),
                     ("observation", e0.reset.to_dict)])) ∧
    (create_environment envs name = none →
      ∃ msg, st.handle_command envs (.vdict fs) = .ok (st, errResp msg)) := by
  constructor
  · intro e0 hce
    simp [EvalHarness.handle_command, hcmd, henv, hce, pyHashable]
  · intro hce
    exact ⟨"Unknown environment: " ++ name ++ ". Use list_envs to see available environments.",
      by simp [EvalHarness.handle_command, hcmd, henv, hce, pyHashable]⟩

/-- C4 witness: resetting to the registered "simple" environment and to
an unregistered name, both through the theorem. -/
theorem harness_reset_registered_or_error_witness :
    (dget [("cmd", PyVal.vstr "reset"), ("env", PyVal.vstr "simple")] "cmd" (.vstr "") =
      .vstr "reset" ∧
     (∀ e0, create_environment ENVIRONMENTS "simple" = some e0 →
        EvalHarness.init.handle_command ENVIRONMENTS
          (.vdict [("cmd", .vstr "reset"), ("env", .vstr "simple")]) =
          .ok ({ env := some e0.reset, env_name := some "simple" },
               .vdict [("status", .vstr "ok"), ("env", .vstr "simple"),
                       ("observation", e0.reset.to_dict)])) ∧
     (create_environment ENVIRONMENTS "simple" = none →
        ∃ msg, EvalHarness.init.handle_command ENVIRONMENTS
          (.vdict [("cmd", .vstr "reset"), ("env", .vstr "simple")]) =
          .ok (EvalHarness.init, errResp msg))) ∧
    (∀ e0, create_environment ENVIRONMENTS "nope" = some e0 →
       EvalHarness.init.handle_command ENVIRONMENTS
         (.vdict [("cmd", .vstr "reset"), ("env", .vstr "nope")]) =
         .ok ({ env := some e0.reset, env_name := some "nope" },
              .vdict [("status", .vstr "ok"), ("env", .vstr "nope"),
                      ("observation", e0.reset.to_dict)])) ∧
    (create_environment ENVIRONMENTS "nope" = none →
       ∃ msg, EvalHarness.init.handle_command ENVIRONMENTS
         (.vdict [("cmd", .vstr "reset"), ("env", .vstr "nope")]) =
         .ok (EvalHarness.init, errResp msg)) :=
  ⟨⟨rfl, harness_reset_registered_or_error ENVIRONMENTS EvalHarness.init
      [("cmd", .vstr "reset"), ("env", .vstr "simple")] "simple" rfl rfl⟩,
   harness_reset_registered_or_error ENVIRONMENTS EvalHarness.init
      [("cmd", .vstr "reset"), ("env", .vstr "nope")] "nope" rfl rfl⟩

/-- C6: a list_envs command is answered with status "ok" and an envs
mapping whose keys are exactly the registered environment names — each mapped to an
object holding an integer difficulty field. -/
theorem harness_list_envs_difficulties (envs : Registry) (st : EvalHarness)
    (fs : List (String × PyVal))
    (hcmd : dget fs "cmd" (.vstr "") = .vstr "list_envs") :
    ∃ entries, st.handle_command envs (.vdict fs) =
      .ok (st, .vdict [("status", .vstr "ok"), ("envs", .vdict entries)]) ∧
      entries.map Prod.fst = envs.map Prod.fst ∧
      ∀ p ∈ entries, ∃ d : Int, p.2 = .vdict [("difficulty", .vint d)] := by
  refine ⟨envs.map (fun nc =>
      (nc.1, .vdict [("difficulty", .vint nc.2.difficulty)])), ?_, ?_, ?_⟩
  · simp [EvalHarness.handle_command, hcmd]
  · simp
  · intro p hp
    simp only [List.mem_map] at hp
    obtain ⟨nc, _, rfl⟩ := hp
    exact ⟨nc.2.difficulty, rfl⟩

/-- C6 witness: listing the concrete registry. -/
theorem harness_list_envs_difficulties_witness :
    dget [("cmd", PyVal.vstr "list_envs")] "cmd" (.vstr "") = .vstr "list_envs" ∧
    (∃ entries, EvalHarness.init.handle_command ENVIRONMENTS
        (.vdict [("cmd", .vstr "list_envs")]) =
        .ok (EvalHarness.init, .vdict [("status", .vstr "ok"), ("envs", .vdict entries)]) ∧
      entries.map Prod.fst = ENVIRONMENTS.map Prod.fst ∧
      ∀ p ∈ entries, ∃ d : Int, p.2 = .vdict [("difficulty", .vint d)]) :=
  ⟨rfl, harness_list_envs_difficulties ENVIRONMENTS EvalHarness.init
    [("cmd", .vstr "list_envs")] rfl⟩

/-- C7: a line whose JSON object maps "cmd" to "quit" is answered with
the goodbye response and the loop terminates immediately after emitting
it — the result does not depend on the remaining lines, which are never
processed. -/
theorem harness_quit_goodbye_and_stop (envs : Registry) (st : EvalHarness)
    (fs : List (String × PyVal)) (rest : List RunLine)
    (hcmd : fs.lookup "cmd" = some (.vstr "quit")) :
    EvalHarness.run envs st (.parsed (.vdict fs) :: rest) =
      .normal [.vdict [("status", .vstr "ok"), ("message", .vstr "goodbye")]] := by
  simp [EvalHarness.run, EvalHarness.handle_command, isQuitCmd, dget, hcmd]

/-- C7 witness: a quit line followed by further lines yields exactly the
goodbye response. -/
theorem harness_quit_goodbye_and_stop_witness :
    List.lookup "cmd" [("cmd", PyVal.vstr "quit")] = some (PyVal.vstr "quit") ∧
    EvalHarness.run ENVIRONMENTS EvalHarness.init
      [.parsed (.vdict [("cmd", .vstr "quit")]), .blank,
       .parsed (.vdict [("cmd", .vstr "list_envs")])] =
      .normal [.vdict [("status", .vstr "ok"), ("message", .vstr "goodbye")]] :=
  ⟨rfl, harness_quit_goodbye_and_stop ENVIRONMENTS EvalHarness.init
    [("cmd", .vstr "quit")]
    [.blank, .parsed (.vdict [("cmd", .vstr "list_envs")])] rfl⟩

/-- C9: a reset command without an "env" key behaves exactly like one
whose "env" is "simple", and when "simple" is registered it loads that
environment instead of returning an error. -/
theorem harness_reset_defaults_simple (envs : Registry) (st : EvalHarness)
    (fs : List (String × PyVal))
    (hcmd : dget fs "cmd" (.vstr "") = .vstr "reset")
    (hnoenv : fs.lookup "env" = none) :
    st.handle_command envs (.vdict fs) =
      st.handle_command envs (.vdict (("env", .vstr "simple") :: fs)) ∧
    (∀ c0, envs.lookup "simple" = some c0 →
      st.handle_command envs (.vdict fs) =
        .ok ({ env := some (Environment.reset { cls := c0, grid := c0.layout }),
               env_name := some "simple" },
             .vdict [("status", .vstr "ok"), ("env", .vstr "simple"),
                     ("observation",
                      (Environment.reset { cls := c0, grid := c0.layout }).to_dict)])) := by
  have hget : dget fs "env" (.vstr "simple") = .vstr "simple" := by
    simp [dget, hnoenv]
  have hcmd' : dget (("env", PyVal.vstr "simple") :: fs) "cmd" (.vstr "") =
      .vstr "reset" := by
    simpa [dget, List.lookup] using hcmd
  have hget' : dget (("env", PyVal.vstr "simple") :: fs) "env" (.vstr "simple") =
      .vstr "simple" := by
    simp [dget, List.lookup]
  constructor
  · cases hce : create_environment envs "simple" with
    | none =>
      simp [EvalHarness.handle_command, hcmd, hcmd', hget, hget', hce, pyHashable]
    | some e0 =>
      simp [EvalHarness.handle_command, hcmd, hcmd', hget, hget', hce, pyHashable]
  · intro c0 hc0
    have hce : create_environment envs "simple" =
        some { cls := c0, grid := c0.layout } := by
      simp [create_environment, hc0]
    simp [EvalHarness.handle_command, hcmd, hget, hce, pyHashable]

/-- C9 witness: a reset command with no "env" key on the concrete
registry loads "simple". -/
theorem harness_reset_defaults_simple_witness :
    dget [("cmd", PyVal.vstr "reset")] "cmd" (.vstr "") = .vstr "reset" ∧
    List.lookup "env" [("cmd", PyVal.vstr "reset")] = none ∧
    (EvalHarness.init.handle_command ENVIRONMENTS
        (.vdict [("cmd", .vstr "reset")]) =
      EvalHarness.init.handle_command ENVIRONMENTS
        (.vdict [("env", .vstr "simple"), ("cmd", .vstr "reset")]) ∧
     (∀ c0, ENVIRONMENTS.lookup "simple" = some c0 →
       EvalHarness.init.handle_command ENVIRONMENTS
          (.vdict [("cmd", .vstr "reset")]) =
         .ok ({ env := some (Environment.reset { cls := c0, grid := c0.layout }),
                env_name := some "simple" },
              .vdict [("status", .vstr "ok"), ("env", .vstr "simple"),
                      ("observation",
                       (Environment.reset { cls := c0, grid := c0.layout }).to_dict)]))) :=
  ⟨rfl, rfl, harness_reset_defaults_simple ENVIRONMENTS EvalHarness.init
    [("cmd", .vstr "reset")] rfl rfl⟩

/-- C10: a step command without an "action" key, issued after a
successful reset, behaves exactly like one whose action is "wait": the
environment is stepped and the answer has status "ok", never an
invalid-action error. -/
theorem harness_step_defaults_wait (envs : Registry) (st : EvalHarness)
    (fs : List (String × PyVal)) (e : Environment)
    (hcmd : dget fs "cmd" (.vstr "") = .vstr "step")
    (hnoact : fs.lookup "action" = none)
    (henv : st.env = some e) :
    st.handle_command envs (.vdict fs) =
      st.handle_command envs (.vdict (("action", .vstr "wait") :: fs)) ∧
    ∃ resp, st.handle_command envs (.vdict fs) =
      .ok ({ st with env := some (e.step "wait").1 }, resp) ∧
      isOkResp resp = true ∧ isErrorResp resp = false := by
  have hget : dget fs "action" (.vstr "wait") = .vstr "wait" := by
    simp [dget, hnoact]
  have hcmd' : dget (("action", PyVal.vstr "wait") :: fs) "cmd" (.vstr "") =
      .vstr "step" := by
    simpa [dget, List.lookup] using hcmd
  have hget' : dget (("action", PyVal.vstr "wait") :: fs) "action" (.vstr "wait") =
      .vstr "wait" := by
    simp [dget, List.lookup]
  constructor
  · simp [EvalHarness.handle_command, hcmd, hcmd', hget, hget', henv]
  · exact ⟨.vdict [("status", .vstr "ok"), ("observation", (e.step "wait").1.to_dict),
        ("reward", (e.step "wait").2.2.1), ("done", (e.step "wait").2.2.2.1),
        ("info", (e.step "wait").2.2.2.2)],
      by simp [EvalHarness.handle_command, hcmd, hget, henv], rfl, rfl⟩

/-- C10 witness: a step command with no "action" key on a harness whose
"simple" environment is loaded. -/
theorem harness_step_defaults_wait_witness :
    dget [("cmd", PyVal.vstr "step")] "cmd" (.vstr "") = .vstr "step" ∧
    List.lookup "action" [("cmd", PyVal.vstr "step")] = none ∧
    ({ env := some { cls := { difficulty := 1, layout := simpleLayout },
                     grid := simpleLayout },
       env_name := some "simple" } : EvalHarness).env =
      some { cls := { difficulty := 1, layout := simpleLayout }, grid := simpleLayout } ∧
    (({ env := some { cls := { difficulty := 1, layout := simpleLayout },
                      grid := simpleLayout },
        env_name := some "simple" } : EvalHarness).handle_command ENVIRONMENTS
        (.vdict [("cmd", .vstr "step")]) =
      ({ env := some { cls := { difficulty := 1, layout := simpleLayout },
                       grid := simpleLayout },
         env_name := some "simple" } : EvalHarness).handle_command ENVIRONMENTS
        (.vdict [("action", .vstr "wait"), ("cmd", .vstr "step")]) ∧
     ∃ resp, ({ env := some { cls := { difficulty := 1, layout := simpleLayout },
                              grid := simpleLayout },
                env_name := some "simple" } : EvalHarness).handle_command ENVIRONMENTS
        (.vdict [("cmd", .vstr "step")]) =
       .ok ({ env := some (({ cls := { difficulty := 1, layout := simpleLayout },
                              grid := simpleLayout } : Environment).step "wait").1,
              env_name := some "simple" }, resp) ∧
       isOkResp resp = true ∧ isErrorResp resp = false) :=
  ⟨rfl, rfl, rfl,
   harness_step_defaults_wait ENVIRONMENTS
     { env := some { cls := { difficulty := 1, layout := simpleLayout },
                     grid := simpleLayout },
       env_name := some "simple" }
     [("cmd", .vstr "step")]
     { cls := { difficulty := 1, layout := simpleLayout }, grid := simpleLayout }
     rfl rfl rfl⟩

/-- Copying is the identity on the grid value: the clone rebuilds every
field and every object record. -/
theorem Grid.copy_eq (g : Grid) : g.copy = g := by
  have hclone : Object.clone = id := funext fun o => rfl
  unfold Grid.copy
  rw [hclone, List.map_id]

/-- Moving one object never touches the step counter. -/
theorem Grid.moveYou_steps (g : Grid) (rules : List (String × String))
    (i : Nat) (dx dy : Int) : (g.moveYou rules i dx dy).steps = g.steps := by
  unfold Grid.moveYou
  dsimp only
  repeat' split
  all_goals rfl

/-- Moving all YOU objects never touches the step counter. -/
theorem Grid.moveYous_steps (rules : List (String × String)) (v : Int × Int)
    (l : List Nat) :
    ∀ g : Grid, ((l.foldl (fun gg i => gg.moveYou rules i v.1 v.2) g)).steps = g.steps := by
  induction l with
  | nil => intro g; rfl
  | cons i rest ih =>
    intro g
    rw [List.foldl_cons, ih, Grid.moveYou_steps]

/-- One tick increments the step counter by exactly one. -/
theorem Grid.step_steps (g : Grid) (a : String) :
    (g.step a).steps = g.steps + 1 := by
  show (g.moveYous g.scanRules (actionVec a)).steps + 1 = g.steps + 1
  rw [Grid.moveYous, Grid.moveYous_steps]

/-- C5: a copied grid carries the same per-cell object-name multiset as
the source in every cell, and the same step counter and terminal flags;
stepping the copy afterwards gives the copy a strictly larger step
counter while the source keeps its value — the snapshot is
independent. -/
theorem grid_copy_snapshot (g : Grid) (x y : Int) (a : String) :
    g.copy.namesAt x y = g.namesAt x y ∧
    g.copy.steps = g.steps ∧ g.copy.won = g.won ∧ g.copy.lost = g.lost ∧
    (g.copy.step a).steps = g.steps + 1 := by
  rw [Grid.copy_eq]
  exact ⟨rfl, rfl, rfl, rfl, Grid.step_steps g a⟩

/-- C1 counterexample: a line holding the valid JSON value `5` — not an
object — makes `handle_command` raise `AttributeError` at
`cmd_data.get`, which escapes the run loop: no response is emitted for
that line and the loop terminates although a quit line is still
pending. -/
theorem harness_run_crash_counterexample :
    EvalHarness.run ENVIRONMENTS EvalHarness.init
      [.parsed (.vint 5), .parsed (.vdict [("cmd", .vstr "quit")])] =
      .crashed [] .attributeError ∧
    ∀ out, EvalHarness.run ENVIRONMENTS EvalHarness.init
      [.parsed (.vint 5), .parsed (.vdict [("cmd", .vstr "quit")])] ≠
      .normal out :=
  ⟨rfl, fun _ h => nomatch h⟩

/-- Safe decoded lines make `handle_command` return a response instead
of raising. -/
theorem handle_command_safe_ok (envs : Registry) (st : EvalHarness) (v : PyVal)
    (h : SafeLine (.parsed v) = true) :
    ∃ st' resp, st.handle_command envs v = .ok (st', resp) := by
  cases v with
  | vdict fs =>
    unfold EvalHarness.handle_command
    repeat' split
    all_goals try exact ⟨_, _, rfl⟩
    all_goals
      (exfalso
       simp only [SafeLine] at h
       simp_all [pyHashable])
  | vnull => exact absurd h (by simp [SafeLine])
  | vbool b => exact absurd h (by simp [SafeLine])
  | vint n => exact absurd h (by simp [SafeLine])
  | vstr s => exact absurd h (by simp [SafeLine])
  | vlist xs => exact absurd h (by simp [SafeLine])

/-- C1 (amended): when every input line is blank, undecodable, or a
JSON object whose "env" value is hashable if it is a reset command, no
exception escapes the run loop: it ends normally (quit or end of
input), and — when no line is blank and no line is a quit — it emits
exactly one response per line. -/
theorem harness_run_safe_no_crash (envs : Registry) (lines : List RunLine)
    (st : EvalHarness)
    (hsafe : ∀ l ∈ lines, SafeLine l = true) :
    ∃ out, EvalHarness.run envs st lines = .normal out ∧
      ((∀ l ∈ lines, isBlankLine l = false) →
       (∀ l ∈ lines, isQuitLine l = false) →
       out.length = lines.length) := by
  induction lines generalizing st with
  | nil => exact ⟨[], rfl, fun _ _ => rfl⟩
  | cons l rest ih =>
    have hrest : ∀ x ∈ rest, SafeLine x = true :=
      fun x hx => hsafe x (List.mem_cons_of_mem _ hx)
    cases l with
    | blank =>
      obtain ⟨out, hout, hlen⟩ := ih st hrest
      refine ⟨out, ?_, ?_⟩
      · simpa [EvalHarness.run] using hout
      · intro hnb _
        exact absurd (hnb _ (List.mem_cons_self _ _)) (by simp [isBlankLine])
    | badJson d =>
      obtain ⟨out, hout, hlen⟩ := ih st hrest
      refine ⟨errResp ("Invalid JSON: " ++ d) :: out, ?_, ?_⟩
      · simp [EvalHarness.run, hout, RunResult.cons]
      · intro hnb hnq
        have := hlen (fun x hx => hnb x (List.mem_cons_of_mem _ hx))
          (fun x hx => hnq x (List.mem_cons_of_mem _ hx))
        simp [this]
    | parsed v =>
      obtain ⟨st2, resp, hhc⟩ :=
        handle_command_safe_ok envs st v (hsafe _ (List.mem_cons_self _ _))
      by_cases hq : isQuitCmd v = true
      · refine ⟨[resp], ?_, ?_⟩
        · simp [EvalHarness.run, hhc, hq]
        · intro _ hnq
          exact absurd (hnq _ (List.mem_cons_self _ _)) (by simp [isQuitLine, hq])
      · obtain ⟨out, hout, hlen⟩ := ih st2 hrest
        refine ⟨resp :: out, ?_, ?_⟩
        · simp [EvalHarness.run, hhc, hq, hout, RunResult.cons]
        · intro hnb hnq
          have := hlen (fun x hx => hnb x (List.mem_cons_of_mem _ hx))
            (fun x hx => hnq x (List.mem_cons_of_mem _ hx))
          simp [this]

/-- C1 (amended) witness: a session with a reset, an undecodable line,
a step and a quit stays crash-free, one response per line until the
quit. -/
theorem harness_run_safe_no_crash_witness :
    (∀ l ∈ [RunLine.parsed (.vdict [("cmd", PyVal.vstr "reset")]),
            RunLine.badJson "oops",
            RunLine.parsed (.vdict [("cmd", PyVal.vstr "step"),
                                    ("action", PyVal.vstr "right")]),
            RunLine.parsed (.vdict [("cmd", PyVal.vstr "quit")])],
       SafeLine l = true) ∧
    (∃ out, EvalHarness.run ENVIRONMENTS EvalHarness.init
        [RunLine.parsed (.vdict [("cmd", PyVal.vstr "reset")]),
         RunLine.badJson "oops",
         RunLine.parsed (.vdict [("cmd", PyVal.vstr "step"),
                                 ("action", PyVal.vstr "right")]),
         RunLine.parsed (.vdict [("cmd", PyVal.vstr "quit")])] =
        .normal out ∧
      ((∀ l ∈ [RunLine.parsed (.vdict [("cmd", PyVal.vstr "reset")]),
               RunLine.badJson "oops",
               RunLine.parsed (.vdict [("cmd", PyVal.vstr "step"),
                                       ("action", PyVal.vstr "right")]),
               RunLine.parsed (.vdict [("cmd", PyVal.vstr "quit")])],
          isBlankLine l = false) →
       (∀ l ∈ [RunLine.parsed (.vdict [("cmd", PyVal.vstr "reset")]),
               RunLine.badJson "oops",
               RunLine.parsed (.vdict [("cmd", PyVal.vstr "step"),
                                       ("action", PyVal.vstr "right")]),
               RunLine.parsed (.vdict [("cmd", PyVal.vstr "quit")])],
          isQuitLine l = false) →
       out.length = 4)) :=
  ⟨by decide,
   harness_run_safe_no_crash ENVIRONMENTS
     [RunLine.parsed (.vdict [("cmd", PyVal.vstr "reset")]),
      RunLine.badJson "oops",
      RunLine.parsed (.vdict [("cmd", PyVal.vstr "step"),
                              ("action", PyVal.vstr "right")]),
      RunLine.parsed (.vdict [("cmd", PyVal.vstr "quit")])]
     EvalHarness.init (by decide)⟩
